import Mathlib

/-!
Shallow embedding of the stream lifecycle and buffering engine of
base-cams-from-pi5: `src/base_station/stream_manager.py` (the
`StreamManager` class) and the constructor of
`src/raspberry_pi/camera_manager.py` (the `CameraManager` class).

Frames are an arbitrary type `α` (the code treats decoded frames as opaque
numpy arrays). Python dictionaries keyed by `camera_id` become association
lists `List (Nat × β)` where assignment replaces any existing binding.
The wall clock and thread scheduling are abstracted: the single iteration of
the per-stream capture loop becomes a step function parametrised by the
outcome of `cap.read()` and by whether the 1-second FPS window has elapsed,
and `time.sleep` / `disconnect` / `connect` calls performed by the
reconnection path are recorded in an explicit event trace (durations in
milliseconds).
-/

namespace BaseCams

/-- Lookup in an association list keyed by camera id (Python `d[k]` /
`k in d`). -/
def alLookup (id : Nat) : List (Nat × β) → Option β
  | [] => none
  | (k, v) :: rest => if k = id then some v else alLookup id rest

/-- Removal of a key (Python `del d[k]`, a no-op here when absent). -/
def alErase (id : Nat) (l : List (Nat × β)) : List (Nat × β) :=
  l.filter (fun p => p.1 ≠ id)

/-- Assignment `d[k] = v`: any existing binding for `k` is replaced, so the
key occurs exactly once afterwards. -/
def alInsert (id : Nat) (v : β) (l : List (Nat × β)) : List (Nat × β) :=
  alErase id l ++ [(id, v)]

/-- Number of bindings an association list holds for a given key. -/
def countKey (id : Nat) (l : List (Nat × β)) : Nat :=
  (l.filter (fun p => p.1 = id)).length

/-- Thread-registry assignment `self.capture_threads[camera_id] = thread`
(the thread object itself is irrelevant, only which ids own a worker). -/
def threadInsert (id : Nat) (l : List Nat) : List Nat :=
  l.filter (fun k => k ≠ id) ++ [id]

/-- Thread-registry removal `del self.capture_threads[camera_id]`. -/
def threadErase (id : Nat) (l : List Nat) : List Nat :=
  l.filter (fun k => k ≠ id)

/-- One stream record, the dictionary stored in `self.streams[camera_id]`
by `connect_stream` (the opaque `capture` handle carries no data relevant
to the claims and is represented by the record's existence). -/
structure StreamRecord (α : Type) where
  url : String
  buffer : List α
  connected : Bool
  fps : Nat
  frame_count : Nat
  last_frame : Option α
  error_count : Nat
deriving Repr, DecidableEq

/-- The `StreamManager` object state: configured buffer size (a Python int,
`maxsize` of each `Queue`), the `streams` registry, the global `active`
flag and the `capture_threads` registry. -/
structure StreamManager (α : Type) where
  buffer_size : Int
  streams : List (Nat × StreamRecord α)
  active : Bool
  capture_threads : List Nat
deriving Repr, DecidableEq

/-- Embeds `StreamManager.__init__(buffer_size=5)`: the value is stored as
given; the constructor performs no validation of any kind. -/
def StreamManager.init (α : Type) (buffer_size : Int) : StreamManager α :=
  { buffer_size := buffer_size, streams := [], active := false,
    capture_threads := [] }

/-- Python `queue.Queue.full()`: true iff `0 < maxsize ≤ qsize()` (a queue
with non-positive `maxsize` is unbounded and never full). -/
def queueFull (maxsize : Int) (buf : List α) : Bool :=
  decide (0 < maxsize) && decide (maxsize ≤ (buf.length : Int))

/-- The push performed by `_capture_loop` lines 151-158: if the buffer is
full, `get_nowait()` removes the single oldest element, then `put(frame)`
appends the new frame at the back. A total function: it never blocks and
never fails. -/
def bufferPush (maxsize : Int) (buf : List α) (f : α) : List α :=
  if queueFull maxsize buf then buf.drop 1 ++ [f] else buf ++ [f]

/-- Non-blocking `buffer.get_nowait()`: the oldest (front) element and the
remaining buffer, or `none` when empty (`Empty` raised in Python, caught at
every call site). -/
def bufferPop : List α → Option α × List α
  | [] => (none, [])
  | f :: rest => (some f, rest)

/-- Repeated `get_nowait()` until `Empty`: the FIFO delivery order consumers
see when draining a buffer. -/
def drainBuffer : List α → List α
  | [] => []
  | f :: rest => ((bufferPop (f :: rest)).1).getD f :: drainBuffer rest

/-- Pushing a whole sequence of frames, oldest first (successive loop
iterations of `_capture_loop`). -/
def pushAll (maxsize : Int) (buf : List α) (fs : List α) : List α :=
  fs.foldl (bufferPush maxsize) buf

/-- Outcome of one `cap.read()` attempt inside `_capture_loop`: a decoded
frame, a `ret == False` failure, or an exception caught by the loop's
`except` clause. -/
inductive ReadResult (α : Type) where
  | success (f : α)
  | failure
  | exn
deriving Repr, DecidableEq

/-- One iteration of the body of `_capture_loop` (lines 136-175) acting on
the stream record and the loop-local `fps_counter`; `windowElapsed` tells
whether `current_time - fps_timer >= 1.0` held at this iteration. The
reconnection branch of lines 166-170 acts on the whole manager and is
modelled separately by `capture_fail_step`. -/
def captureStep (maxsize : Int) (r : StreamRecord α) (fpsCounter : Nat)
    (res : ReadResult α) (windowElapsed : Bool) : StreamRecord α × Nat :=
  match res with
  | ReadResult.success f =>
      let fc := fpsCounter + 1
      let r1 := if windowElapsed then { r with fps := fc } else r
      let fc1 := if windowElapsed then 0 else fc
      ({ r1 with frame_count := r1.frame_count + 1,
                 buffer := bufferPush maxsize r1.buffer f,
                 last_frame := some f,
                 error_count := 0 }, fc1)
  | ReadResult.failure => ({ r with error_count := r.error_count + 1 }, fpsCounter)
  | ReadResult.exn => ({ r with error_count := r.error_count + 1 }, fpsCounter)

/-- The fresh record `connect_stream` stores in `self.streams[camera_id]`
(lines 63-72 of `stream_manager.py`). -/
def initRecord (α : Type) (url : String) : StreamRecord α :=
  { url := url, buffer := [], connected := true, fps := 0, frame_count := 0,
    last_frame := none, error_count := 0 }

/-- Outcome of one `cv2.VideoCapture(url, backend)` attempt: the handle
opened (`isOpened()` true), it did not open, or the call raised an
exception (which the `except` clause of `connect_stream` catches). -/
inductive OpenResult where
  | opened
  | failed
  | raised (msg : String)
deriving Repr, DecidableEq

/-- The environment a `connect_stream` call runs in: what the GStreamer
attempt does and, if it is consulted, what the FFMPEG fallback does. -/
structure ConnectEnv where
  gstreamer : OpenResult
  ffmpeg : OpenResult
deriving Repr, DecidableEq

/-- Lines 46-52 of `connect_stream`: try the GStreamer backend; if it did
not open (and did not raise), try the FFMPEG fallback. -/
def openBackends (env : ConnectEnv) : OpenResult :=
  match env.gstreamer with
  | OpenResult.opened => OpenResult.opened
  | OpenResult.raised msg => OpenResult.raised msg
  | OpenResult.failed => env.ffmpeg

/-- Embeds `disconnect_stream` (lines 91-119): when the id is registered,
the record's `connected` flag is cleared, the worker thread is joined and
removed from `capture_threads`, the capture handle released, the buffer
drained, and the record deleted; unknown ids are a no-op. The intermediate
mutations act on the record that is deleted in the same call, so only the
two registry removals remain observable. -/
def disconnect_stream (m : StreamManager α) (id : Nat) : StreamManager α :=
  match alLookup id m.streams with
  | none => m
  | some _ =>
      { m with streams := alErase id m.streams,
               capture_threads := threadErase id m.capture_threads }

/-- The body of `connect_stream` (lines 40-85), before the surrounding
`try`: disconnect any existing stream for the id, attempt both backends,
and on success register the new record, set the global `active` flag and
record the spawned capture thread. An exception surfaces as `Except.error`
carrying the state at the point it was raised (only the open attempts are
modelled as able to raise; every mutation before them is the disconnect). -/
def connect_body (m : StreamManager α) (id : Nat) (url : String)
    (env : ConnectEnv) : Except (String × StreamManager α) (StreamManager α × Bool) :=
  let m1 := if (alLookup id m.streams).isSome then disconnect_stream m id else m
  match openBackends env with
  | OpenResult.raised msg => Except.error (msg, m1)
  | OpenResult.failed => Except.ok (m1, false)
  | OpenResult.opened =>
      Except.ok ({ m1 with
                    streams := alInsert id (initRecord α url) m1.streams,
                    active := true,
                    capture_threads := threadInsert id m1.capture_threads }, true)

/-- Embeds `connect_stream` (lines 29-89): the whole body runs inside
`try ... except`, so an exception raised during the open attempts is caught
and the call returns `False`; no exception ever escapes to the caller. -/
def connect_stream (m : StreamManager α) (id : Nat) (url : String)
    (env : ConnectEnv) : StreamManager α × Bool :=
  match connect_body m id url env with
  | Except.ok res => res
  | Except.error e => (e.2, false)

/-- Embeds `get_frame` (lines 190-212): unknown id yields `none`; otherwise
a non-blocking `get_nowait()` returns and removes the oldest buffered frame
(updating `last_frame`), and an empty buffer yields the `last_frame`
cache (which is `none` while the stream has never produced a frame). -/
def get_frame (m : StreamManager α) (id : Nat) : Option α × StreamManager α :=
  match alLookup id m.streams with
  | none => (none, m)
  | some r =>
      match r.buffer with
      | [] => (r.last_frame, m)
      | f :: rest =>
          (some f,
           { m with streams :=
              alInsert id { r with buffer := rest, last_frame := some f } m.streams })

/-- Manager state after the non-empty-buffer branch of `get_frame` pops the
oldest frame `f` from the record `r` registered under `id` (lines 206-209):
the remaining buffer is kept and the `last_frame` cache is refreshed. -/
def popUpdate (m : StreamManager α) (id : Nat) (r : StreamRecord α)
    (f : α) (rest : List α) : StreamManager α :=
  { m with
    streams := alInsert id { r with buffer := rest, last_frame := some f }
      m.streams }

/-- The dictionary `get_stream_info` builds from a record (lines 228-234). -/
structure StreamInfo where
  connected : Bool
  fps : Nat
  frame_count : Nat
  url : String
  error_count : Nat
deriving Repr, DecidableEq

/-- Embeds `get_stream_info` (lines 214-234): `none` for unknown ids, else
a snapshot of the record's fields; the manager state is untouched. -/
def get_stream_info (m : StreamManager α) (id : Nat) : Option StreamInfo :=
  match alLookup id m.streams with
  | none => none
  | some r =>
      some { connected := r.connected, fps := r.fps,
             frame_count := r.frame_count, url := r.url,
             error_count := r.error_count }

/-- Embeds `is_connected` (lines 248-260): the id is registered, its
`connected` flag is set, and `error_count` is strictly below the hard-coded
threshold 10. -/
def is_connected (m : StreamManager α) (id : Nat) : Bool :=
  match alLookup id m.streams with
  | none => false
  | some r => r.connected && decide (r.error_count < 10)

/-- Embeds `frame.copy()` in `capture_frame`: frames are immutable values
in the embedding, so the independent copy is the value itself. -/
def frameCopy (f : α) : α := f

/-- Embeds `capture_frame` (lines 268-287): unknown id yields `none`, else
the result of `get_frame` copied for the caller. -/
def capture_frame (m : StreamManager α) (id : Nat) : Option α × StreamManager α :=
  match alLookup id m.streams with
  | none => (none, m)
  | some _ =>
      let res := get_frame m id
      match res.1 with
      | some f => (some (frameCopy f), res.2)
      | none => (none, res.2)

/-- Externally visible actions of the reconnection path, in program order;
sleep durations are in milliseconds. -/
inductive Event where
  | disconnectEv (id : Nat)
  | sleepMs (ms : Nat)
  | connectEv (id : Nat) (url : String)
deriving Repr, DecidableEq

/-- Embeds `disconnect_stream` (lines 91-119) as executed from the
stream's own capture thread, the context of `_reconnect_stream`'s only
call site (line 170 inside `_capture_loop`): line 100 clears the record's
`connected` flag in place; then, when the thread registry holds an entry
for the id, line 104 calls `join(timeout=2)` on that entry — the current
thread — and CPython's `Thread.join` raises
`RuntimeError("cannot join current thread")` before any timeout handling.
The error carries the state at the raise: flag cleared, handle not
released, buffer not drained, record and thread entry still registered.
Only when no thread entry exists is the join skipped and the disconnect
completed. -/
def disconnect_from_capture_thread (m : StreamManager α) (id : Nat) :
    Except (String × StreamManager α) (StreamManager α) :=
  match alLookup id m.streams with
  | none => Except.ok m
  | some r =>
      let rFlag := { r with connected := false }
      let m1 := { m with streams := alInsert id rFlag m.streams }
      if id ∈ m.capture_threads then
        Except.error ("cannot join current thread", m1)
      else
        Except.ok { m1 with streams := alErase id m1.streams,
                            capture_threads := threadErase id m1.capture_threads }

/-- Embeds `_reconnect_stream` (lines 177-188) as executed from its only
call site, the stream's own capture thread: read the stored url, then call
`disconnect_stream` — which raises out of the nested join whenever this
thread's registry entry is present, so `time.sleep(1)` and the
`connect_stream` call are never reached on that path
(`_reconnect_stream` has no exception handler of its own). On the
non-raising path the disconnect completes and the 1000 ms pause and the
reconnect attempt with the stored url follow, the trace recording the
actions in program order. -/
def reconnect_stream (m : StreamManager α) (id : Nat) (env : ConnectEnv) :
    Except (String × StreamManager α) (StreamManager α × List Event) :=
  match alLookup id m.streams with
  | none => Except.ok (m, [])
  | some r =>
      match disconnect_from_capture_thread m id with
      | Except.error e => Except.error e
      | Except.ok m1 =>
          Except.ok ((connect_stream m1 id r.url env).1,
            [Event.disconnectEv id, Event.sleepMs 1000,
             Event.connectEv id r.url])

/-- The `ret == False` branch of `_capture_loop` (lines 162-175) lifted to
the manager, together with the loop-level `except` clause: increment the
record's `error_count`, `time.sleep(0.1)` (100 ms), and once the
incremented count exceeds 10 run `_reconnect_stream` from this capture
thread; if that raises, the `except Exception` clause of lines 172-175
catches the RuntimeError, increments `error_count` once more and sleeps
another 100 ms (after which the loop exits, since the record's `connected`
flag is now false). -/
def capture_fail_step (m : StreamManager α) (id : Nat) (env : ConnectEnv) :
    StreamManager α × List Event :=
  match alLookup id m.streams with
  | none => (m, [])
  | some r =>
      let r1 := { r with error_count := r.error_count + 1 }
      let m1 := { m with streams := alInsert id r1 m.streams }
      if 10 < r1.error_count then
        match reconnect_stream m1 id env with
        | Except.ok res => (res.1, Event.sleepMs 100 :: res.2)
        | Except.error e =>
            match alLookup id e.2.streams with
            | none => (e.2, [Event.sleepMs 100, Event.sleepMs 100])
            | some r2 =>
                let r3 := { r2 with error_count := r2.error_count + 1 }
                ({ e.2 with streams := alInsert id r3 e.2.streams },
                 [Event.sleepMs 100, Event.sleepMs 100])
      else (m1, [Event.sleepMs 100])

/-- The `CameraManager` constructor state on the Raspberry Pi side:
resolution (the pair parsed from the "widthxheight" string) and fps. -/
structure CameraManager where
  resolution : Int × Int
  fps : Int
deriving Repr, DecidableEq

/-- Embeds `CameraManager.__init__(resolution="640x480", fps=15)` of
`camera_manager.py` with the string already split into its parsed integer
pair: both values are stored exactly as given, with no validation of any
kind (in particular no positivity check). -/
def CameraManager.init (resolution : Int × Int) (fps : Int) : CameraManager :=
  { resolution := resolution, fps := fps }

/-- Invariant a live stream record maintains: the last_frame cache is none
exactly while no frame has ever been produced (frame_count is 0), and the
buffer is empty in that case. It holds for the record connect_stream
creates and is preserved by every capture-loop step and every pop a
get_frame call performs. -/
def recordInv (r : StreamRecord α) : Prop :=
  (r.frame_count = 0 → r.last_frame = none ∧ r.buffer = []) ∧
  (r.last_frame = none → r.frame_count = 0)

/-- Concrete record sitting at the error threshold, used to evaluate the
reconnection theorems on an explicit input. -/
def sampleRec10 : StreamRecord Nat :=
  { url := "rtsp", buffer := [], connected := true, fps := 0,
    frame_count := 0, last_frame := none, error_count := 10 }

/-- Concrete manager owning `sampleRec10` under id 0. -/
def sampleManager10 : StreamManager Nat :=
  { buffer_size := 5, streams := [(0, sampleRec10)], active := true,
    capture_threads := [0] }

/-- Concrete record with one buffered frame, used to evaluate the
get_frame theorems on an explicit input. -/
def sampleRecBuf : StreamRecord Nat :=
  { url := "u", buffer := [7], connected := true, fps := 0,
    frame_count := 1, last_frame := some 7, error_count := 0 }

/-- Concrete manager owning `sampleRecBuf` under id 0. -/
def sampleManagerBuf : StreamManager Nat :=
  { buffer_size := 5, streams := [(0, sampleRecBuf)], active := true,
    capture_threads := [0] }

/-- Environment in which the first backend opens the capture. -/
def envOpened : ConnectEnv :=
  { gstreamer := OpenResult.opened, ffmpeg := OpenResult.opened }

/-- Environment in which both backends fail to open the capture. -/
def envFailed : ConnectEnv :=
  { gstreamer := OpenResult.failed, ffmpeg := OpenResult.failed }

/-! Supporting lemmas about the registry operations. -/

theorem alLookup_eq_none_of_forall (id : Nat) (l : List (Nat × β))
    (h : ∀ p ∈ l, p.1 ≠ id) : alLookup id l = none := by
  induction l with
  | nil => rfl
  | cons p rest ih =>
      have hp := h p (List.mem_cons_self p rest)
      simp [alLookup, hp]
      exact ih (fun q hq => h q (List.mem_cons_of_mem p hq))

theorem alLookup_alErase (id : Nat) (l : List (Nat × β)) :
    alLookup id (alErase id l) = none := by
  apply alLookup_eq_none_of_forall
  intro p hp
  have := (List.mem_filter.mp hp).2
  simpa using this

theorem alLookup_append_of_none (id : Nat) {l1 : List (Nat × β)}
    (h : alLookup id l1 = none) (l2 : List (Nat × β)) :
    alLookup id (l1 ++ l2) = alLookup id l2 := by
  induction l1 with
  | nil => rfl
  | cons p rest ih =>
      by_cases hp : p.1 = id
      · simp [alLookup, hp] at h
      · simp [alLookup, hp] at h ⊢
        exact ih h

theorem alLookup_alInsert (id : Nat) (v : β) (l : List (Nat × β)) :
    alLookup id (alInsert id v l) = some v := by
  unfold alInsert
  rw [alLookup_append_of_none id (alLookup_alErase id l)]
  simp [alLookup]

theorem countKey_eq_zero_of_forall (id : Nat) (l : List (Nat × β))
    (h : ∀ p ∈ l, p.1 ≠ id) : countKey id l = 0 := by
  unfold countKey
  rw [List.length_eq_zero, List.filter_eq_nil_iff]
  intro p hp
  simp [h p hp]

theorem countKey_alErase (id : Nat) (l : List (Nat × β)) :
    countKey id (alErase id l) = 0 := by
  apply countKey_eq_zero_of_forall
  intro p hp
  have := (List.mem_filter.mp hp).2
  simpa using this

theorem countKey_alInsert (id : Nat) (v : β) (l : List (Nat × β)) :
    countKey id (alInsert id v l) = 1 := by
  unfold alInsert countKey
  rw [List.filter_append, List.length_append]
  have h0 := countKey_alErase id l
  unfold countKey at h0
  rw [h0]
  simp

theorem count_threadInsert (id : Nat) (l : List Nat) :
    (threadInsert id l).count id = 1 := by
  unfold threadInsert
  rw [List.count_append]
  have h0 : (l.filter (fun k => k ≠ id)).count id = 0 := by
    rw [List.count_eq_zero]
    intro hmem
    have := (List.mem_filter.mp hmem).2
    simp at this
  rw [h0]
  simp

theorem count_threadErase (id : Nat) (l : List Nat) :
    (threadErase id l).count id = 0 := by
  unfold threadErase
  rw [List.count_eq_zero]
  intro hmem
  have := (List.mem_filter.mp hmem).2
  simp at this

/-! Supporting lemmas about the bounded buffer. -/

theorem queueFull_coe_iff (C : Nat) (buf : List α) (hC : 1 ≤ C)
    (hlen : buf.length ≤ C) :
    queueFull (C : Int) buf = true ↔ buf.length = C := by
  unfold queueFull
  constructor
  · intro h
    simp at h
    omega
  · intro h
    simp
    omega

theorem bufferPush_of_full (C : Nat) (buf : List α) (f : α) (hC : 1 ≤ C)
    (h : buf.length = C) : bufferPush (C : Int) buf f = buf.drop 1 ++ [f] := by
  unfold bufferPush
  rw [if_pos]
  exact (queueFull_coe_iff C buf hC (le_of_eq h)).mpr h

theorem bufferPush_of_not_full (C : Nat) (buf : List α) (f : α)
    (h : buf.length < C) : bufferPush (C : Int) buf f = buf ++ [f] := by
  unfold bufferPush
  rw [if_neg]
  unfold queueFull
  simp
  omega

theorem bufferPush_length_le (C : Nat) (buf : List α) (f : α) (hC : 1 ≤ C)
    (h : buf.length ≤ C) : (bufferPush (C : Int) buf f).length ≤ C := by
  rcases Nat.lt_or_ge buf.length C with hlt | hge
  · rw [bufferPush_of_not_full C buf f hlt]
    simp
    omega
  · have heq : buf.length = C := le_antisymm h hge
    rw [bufferPush_of_full C buf f hC heq]
    simp
    omega

theorem pushAll_closed (C : Nat) (hC : 1 ≤ C) :
    ∀ (fs buf : List α), buf.length ≤ C →
      pushAll (C : Int) buf fs = (buf ++ fs).drop (buf.length + fs.length - C) := by
  intro fs
  induction fs with
  | nil =>
      intro buf hlen
      have h0 : buf.length - C = 0 := by omega
      simp [pushAll, h0]
  | cons f fs ih =>
      intro buf hlen
      have hstep : pushAll (C : Int) buf (f :: fs)
          = pushAll (C : Int) (bufferPush (C : Int) buf f) fs := by
        simp [pushAll, List.foldl_cons]
      rw [hstep]
      rcases Nat.lt_or_ge buf.length C with hlt | hge
      · rw [bufferPush_of_not_full C buf f hlt]
        rw [ih (buf ++ [f]) (by simp; omega)]
        have harr : buf ++ [f] ++ fs = buf ++ f :: fs := by simp
        rw [harr]
        congr 1
        simp
        omega
      · have heq : buf.length = C := le_antisymm hlen hge
        rw [bufferPush_of_full C buf f hC heq]
        have hlen2 : (buf.drop 1 ++ [f]).length ≤ C := by
          simp
          omega
        rw [ih (buf.drop 1 ++ [f]) hlen2]
        obtain ⟨b, bt, rfl⟩ : ∃ b bt, buf = b :: bt := by
          cases buf with
          | nil => simp at heq; omega
          | cons b bt => exact ⟨b, bt, rfl⟩
        have harr : (b :: bt).drop 1 ++ [f] ++ fs = bt ++ f :: fs := by simp
        rw [harr]
        have hd1 : (b :: bt).length + (f :: fs).length - C = fs.length + 1 := by
          simp at heq ⊢
          omega
        have hd2 : ((b :: bt).drop 1 ++ [f]).length + fs.length - C
            = fs.length := by
          simp at heq ⊢
          omega
        rw [hd1, hd2]
        simp [List.drop_succ_cons]

theorem pushAll_length_le (C : Nat) (hC : 1 ≤ C) (fs : List α) :
    (pushAll (C : Int) [] fs).length ≤ C := by
  rw [pushAll_closed C hC fs [] (by simp)]
  simp
  omega

theorem drainBuffer_eq (l : List α) : drainBuffer l = l := by
  induction l with
  | nil => rfl
  | cons f rest ih => simp [drainBuffer, bufferPop, ih]

theorem captureStep_success_buffer (C : Int) (r : StreamRecord α) (fc : Nat)
    (f : α) (w : Bool) :
    (captureStep C r fc (ReadResult.success f) w).1.buffer
      = bufferPush C r.buffer f := by
  cases w <;> simp [captureStep]

/-! The claims. -/

/-- C1: after every push performed by the ingestion loop the stream's frame
buffer holds at most C elements (C the configured capacity, default 5);
when the buffer is already full the push removes exactly one oldest element
before inserting the new frame; and the push is a total function of the
previous buffer, so it neither blocks nor fails. -/
theorem C1_buffer_bound_after_push (C : Nat) (r : StreamRecord α) (fc : Nat)
    (f : α) (w : Bool) (hC : 1 ≤ C) (hlen : r.buffer.length ≤ C) :
    ((captureStep (C : Int) r fc (ReadResult.success f) w).1.buffer.length ≤ C) ∧
    (r.buffer.length = C →
      (captureStep (C : Int) r fc (ReadResult.success f) w).1.buffer
        = r.buffer.drop 1 ++ [f]) ∧
    (∀ fs : List α, (pushAll (C : Int) [] fs).length ≤ C) := by
  have hbuf := captureStep_success_buffer (C : Int) r fc f w
  refine ⟨?_, ?_, ?_⟩
  · rw [hbuf]
    exact bufferPush_length_le C r.buffer f hC hlen
  · intro h
    rw [hbuf]
    exact bufferPush_of_full C r.buffer f hC h
  · intro fs
    exact pushAll_length_le C hC fs

theorem C1_buffer_bound_after_push_witness :
    1 ≤ 5 ∧
    ((captureStep (5 : Int)
        { initRecord Nat "rtsp" with buffer := [1, 2, 3, 4, 5] }
        0 (ReadResult.success 9) false).1.buffer.length ≤ 5) := by
  refine ⟨by decide, ?_⟩
  exact (C1_buffer_bound_after_push 5
    { initRecord Nat "rtsp" with buffer := [1, 2, 3, 4, 5] }
    0 9 false (by decide) (by decide)).1

/-- C2: for every capacity C ≥ 1 and every frame sequence longer than C,
pushing all frames into an initially empty drop-oldest buffer and then
draining it by repeated retrieval yields exactly the last C frames in
their original relative order. -/
theorem C2_drop_oldest_drain (C : Nat) (frames : List α)
    (hC : 1 ≤ C) (hN : C < frames.length) :
    drainBuffer (pushAll (C : Int) [] frames)
      = frames.drop (frames.length - C) ∧
    (frames.drop (frames.length - C)).length = C := by
  have hclosed := pushAll_closed C hC frames [] (by simp)
  constructor
  · rw [drainBuffer_eq, hclosed]
    simp
  · simp
    omega

theorem C2_drop_oldest_drain_witness :
    1 ≤ 2 ∧ 2 < [10, 20, 30].length ∧
    drainBuffer (pushAll (2 : Int) [] [10, 20, 30]) = [20, 30] := by
  refine ⟨by decide, by decide, ?_⟩
  exact ((C2_drop_oldest_drain 2 [10, 20, 30] (by decide)
    (by decide)).1).trans (by decide)

/-- C3: is_connected returns true exactly when the id has a registered
record whose connected flag is set and whose error count is strictly below
the hard-coded threshold 10; in particular it is never true in a state
where the count has reached the threshold. -/
theorem C3_is_connected_iff (m : StreamManager α) (id : Nat) :
    is_connected m id = true ↔
      ∃ r, alLookup id m.streams = some r ∧ r.connected = true ∧
        r.error_count < 10 := by
  unfold is_connected
  cases h : alLookup id m.streams with
  | none => simp
  | some r => simp

/-- C6: one successful read resets error_count to 0 from every prior value,
and each failed read attempt (a false return or a caught exception)
increments it by exactly one, so the count grows only across consecutive
failures with no intervening success. -/
theorem C6_error_count_step (C : Int) (r : StreamRecord α) (fc : Nat)
    (f : α) (w : Bool) :
    (captureStep C r fc (ReadResult.success f) w).1.error_count = 0 ∧
    (captureStep C r fc ReadResult.failure w).1.error_count
      = r.error_count + 1 ∧
    (captureStep C r fc ReadResult.exn w).1.error_count
      = r.error_count + 1 := by
  refine ⟨?_, rfl, rfl⟩
  cases w <;> simp [captureStep]

/-- C10: for an id that is not a key of the stream registry, get_frame,
capture_frame and get_stream_info all return none, raise no exception (they
are total functions) and leave the manager state unchanged. -/
theorem C10_unknown_id_safe (m : StreamManager α) (id : Nat)
    (h : alLookup id m.streams = none) :
    get_frame m id = (none, m) ∧ capture_frame m id = (none, m) ∧
    get_stream_info m id = none := by
  refine ⟨?_, ?_, ?_⟩ <;> simp [get_frame, capture_frame, get_stream_info, h]

theorem C10_unknown_id_safe_witness :
    alLookup 0 (StreamManager.init Nat 5).streams = none ∧
    get_frame (StreamManager.init Nat 5) 0 = (none, StreamManager.init Nat 5) := by
  refine ⟨rfl, ?_⟩
  exact (C10_unknown_id_safe (StreamManager.init Nat 5) 0 rfl).1

/-- C4 (refuting the claimed behavior): with a registered record at or
past the error threshold and the stream's capture-thread entry present
(as connect_stream guarantees while the loop runs), the post-threshold
failure step never performs the claimed disconnect-pause-reconnect
sequence: `_reconnect_stream`'s nested `disconnect_stream` joins the
current thread, which raises RuntimeError after clearing only the
`connected` flag, and the loop's `except` clause swallows it. The step's
only observable actions are two 100 ms sleeps: no disconnect completes,
no 1000 ms pause occurs and no reconnect attempt is made; the record
stays registered with `connected` false, its error count bumped twice and
its buffer, url and last_frame cache intact, and the thread-registry
entry is never removed. -/
theorem C4_reconnect_aborts (m : StreamManager α) (id : Nat)
    (r : StreamRecord α) (env : ConnectEnv)
    (hr : alLookup id m.streams = some r) (hth : 10 ≤ r.error_count)
    (hthr : id ∈ m.capture_threads) :
    (capture_fail_step m id env).2
      = [Event.sleepMs 100, Event.sleepMs 100] ∧
    (∃ r2, alLookup id (capture_fail_step m id env).1.streams = some r2 ∧
        r2.connected = false ∧ r2.error_count = r.error_count + 2 ∧
        r2.buffer = r.buffer ∧ r2.url = r.url ∧
        r2.last_frame = r.last_frame) ∧
    (capture_fail_step m id env).1.capture_threads = m.capture_threads ∧
    (capture_fail_step m id env).1.active = m.active := by
  have hgt : 10 < r.error_count + 1 := by omega
  unfold capture_fail_step reconnect_stream disconnect_from_capture_thread
  rw [hr]
  simp [hgt, alLookup_alInsert, hthr]

theorem C4_reconnect_aborts_witness :
    alLookup 0 sampleManager10.streams = some sampleRec10 ∧
    10 ≤ sampleRec10.error_count ∧ 0 ∈ sampleManager10.capture_threads ∧
    (capture_fail_step sampleManager10 0 envFailed).2
      = [Event.sleepMs 100, Event.sleepMs 100] := by
  refine ⟨rfl, by decide, by decide, ?_⟩
  exact (C4_reconnect_aborts sampleManager10 0 sampleRec10 envFailed
    rfl (by decide) (by decide)).1

theorem recordInv_initRecord (url : String) :
    recordInv (initRecord α url) := by
  constructor <;> simp [initRecord]

theorem recordInv_captureStep (C : Int) (r : StreamRecord α) (fc : Nat)
    (res : ReadResult α) (w : Bool) (h : recordInv r) :
    recordInv (captureStep C r fc res w).1 := by
  cases res with
  | success f => cases w <;> simp [captureStep, recordInv]
  | failure =>
      simp only [captureStep]
      unfold recordInv at h ⊢
      simpa using h
  | exn =>
      simp only [captureStep]
      unfold recordInv at h ⊢
      simpa using h

theorem recordInv_pop (r : StreamRecord α) (f : α) (rest : List α)
    (hbuf : r.buffer = f :: rest) (h : recordInv r) :
    recordInv { r with buffer := rest, last_frame := some f } := by
  constructor
  · intro h0
    simp at h0
    have hnil := (h.1 h0).2
    rw [hbuf] at hnil
    simp at hnil
  · intro hnone
    simp at hnone

/-- C5: for a registered stream id, get_frame removes and returns the
oldest buffered frame when the buffer is non-empty (refreshing the
last_frame cache); with an empty buffer it returns the last_frame cache,
an actual frame whenever at least one frame has ever been produced and
none otherwise; and the call is a total function, so it never blocks. -/
theorem C5_get_frame_cases (m : StreamManager α) (id : Nat)
    (r : StreamRecord α) (hr : alLookup id m.streams = some r)
    (hinv : recordInv r) :
    (∀ f rest, r.buffer = f :: rest →
        get_frame m id = (some f, popUpdate m id r f rest)) ∧
    (r.buffer = [] → get_frame m id = (r.last_frame, m)) ∧
    (r.buffer = [] → r.frame_count ≠ 0 →
        ∃ f, get_frame m id = (some f, m)) ∧
    (r.frame_count = 0 → get_frame m id = (none, m)) := by
  refine ⟨?_, ?_, ?_, ?_⟩
  · intro f rest hbuf
    simp [get_frame, popUpdate, hr, hbuf]
  · intro hbuf
    simp [get_frame, hr, hbuf]
  · intro hbuf hfc
    cases hlf : r.last_frame with
    | none => exact absurd (hinv.2 hlf) hfc
    | some f =>
        refine ⟨f, ?_⟩
        simp [get_frame, hr, hbuf, hlf]
  · intro h0
    obtain ⟨hlf, hbuf⟩ := hinv.1 h0
    simp [get_frame, hr, hbuf, hlf]

theorem C5_get_frame_cases_witness :
    alLookup 0 sampleManagerBuf.streams = some sampleRecBuf ∧
    get_frame sampleManagerBuf 0
      = (some (7 : Nat), popUpdate sampleManagerBuf 0 sampleRecBuf 7 []) := by
  refine ⟨rfl, ?_⟩
  exact (C5_get_frame_cases sampleManagerBuf 0 sampleRecBuf rfl
    (by refine ⟨fun h0 => ?_, fun h0 => ?_⟩ <;>
          simp [sampleRecBuf] at h0)).1 7 [] rfl

theorem connect_stream_opened (m : StreamManager α) (id : Nat) (url : String)
    (env : ConnectEnv) (h : openBackends env = OpenResult.opened) :
    (connect_stream m id url env).1.streams
        = alInsert id (initRecord α url)
            (if (alLookup id m.streams).isSome then disconnect_stream m id
             else m).streams ∧
    (connect_stream m id url env).1.capture_threads
        = threadInsert id
            (if (alLookup id m.streams).isSome then disconnect_stream m id
             else m).capture_threads ∧
    (connect_stream m id url env).2 = true := by
  unfold connect_stream connect_body
  rw [h]
  simp

/-- C7: connect_stream is idempotent with respect to worker multiplicity: a
call on an id that already has a record disconnects it before creating the
new one, so two successful calls in a row leave exactly one registered
record and exactly one capture thread for the id, the record being the
fresh one for the given url; and the second call indeed found the first
call's record registered. -/
theorem C7_connect_idempotent (m : StreamManager α) (id : Nat)
    (url : String) (env1 env2 : ConnectEnv)
    (h1 : openBackends env1 = OpenResult.opened)
    (h2 : openBackends env2 = OpenResult.opened) :
    countKey id
      ((connect_stream (connect_stream m id url env1).1 id url env2).1).streams
      = 1 ∧
    ((connect_stream (connect_stream m id url env1).1 id url
        env2).1).capture_threads.count id = 1 ∧
    alLookup id
      ((connect_stream (connect_stream m id url env1).1 id url env2).1).streams
      = some (initRecord α url) ∧
    (alLookup id (connect_stream m id url env1).1.streams).isSome = true := by
  obtain ⟨hs1, ht1, hb1⟩ := connect_stream_opened m id url env1 h1
  obtain ⟨hs2, ht2, hb2⟩ :=
    connect_stream_opened (connect_stream m id url env1).1 id url env2 h2
  refine ⟨?_, ?_, ?_, ?_⟩
  · rw [hs2]
    exact countKey_alInsert id _ _
  · rw [ht2]
    exact count_threadInsert id _
  · rw [hs2]
    exact alLookup_alInsert id _ _
  · rw [hs1, alLookup_alInsert]
    rfl

theorem C7_connect_idempotent_witness :
    countKey 0 ((connect_stream (connect_stream (StreamManager.init Nat 5)
        0 "rtsp" { gstreamer := OpenResult.opened,
                   ffmpeg := OpenResult.opened }).1
        0 "rtsp" { gstreamer := OpenResult.opened,
                   ffmpeg := OpenResult.opened }).1).streams = 1 := by
  exact (C7_connect_idempotent (StreamManager.init Nat 5) 0 "rtsp"
    { gstreamer := OpenResult.opened, ffmpeg := OpenResult.opened }
    { gstreamer := OpenResult.opened, ffmpeg := OpenResult.opened }
    rfl rfl).1

theorem lookup_after_maybe_disconnect (m : StreamManager α) (id : Nat) :
    alLookup id (if (alLookup id m.streams).isSome then disconnect_stream m id
                 else m).streams = none := by
  cases h : alLookup id m.streams with
  | none => simp [h]
  | some r => simp [h, disconnect_stream, alLookup_alErase]

theorem threads_after_maybe_disconnect (m : StreamManager α) (id : Nat) :
    ((if (alLookup id m.streams).isSome then disconnect_stream m id
      else m).capture_threads).count id ≤ m.capture_threads.count id := by
  cases h : alLookup id m.streams with
  | none => simp [h]
  | some r => simp [h, disconnect_stream, count_threadErase]

theorem connect_stream_not_opened (m : StreamManager α) (id : Nat)
    (url : String) (env : ConnectEnv)
    (h : openBackends env ≠ OpenResult.opened) :
    connect_stream m id url env
      = (if (alLookup id m.streams).isSome then disconnect_stream m id else m,
         false) := by
  unfold connect_stream connect_body
  cases hob : openBackends env with
  | opened => exact absurd hob h
  | failed => simp
  | raised msg => simp

/-- C8: when neither decode backend opens the capture (each attempt either
fails or raises an exception), connect_stream returns false, registers no
stream record and no capture thread for the id, and, being the total catch
of connect_body, turns every exception of the body into that false return
instead of letting it escape to the caller. -/
theorem C8_connect_open_failure (m : StreamManager α) (id : Nat)
    (url : String) (env : ConnectEnv)
    (hg : env.gstreamer ≠ OpenResult.opened)
    (hf : env.ffmpeg ≠ OpenResult.opened) :
    (connect_stream m id url env).2 = false ∧
    alLookup id (connect_stream m id url env).1.streams = none ∧
    (connect_stream m id url env).1.capture_threads.count id
      ≤ m.capture_threads.count id ∧
    (∀ e, connect_body m id url env = Except.error e →
        connect_stream m id url env = (e.2, false)) := by
  have hno : openBackends env ≠ OpenResult.opened := by
    unfold openBackends
    cases hgv : env.gstreamer with
    | opened => exact absurd hgv hg
    | failed => exact hf
    | raised msg => simp
  have hrw := connect_stream_not_opened m id url env hno
  refine ⟨by rw [hrw], ?_, ?_, ?_⟩
  · rw [hrw]
    exact lookup_after_maybe_disconnect m id
  · rw [hrw]
    exact threads_after_maybe_disconnect m id
  · intro e he
    unfold connect_stream
    rw [he]

theorem C8_connect_open_failure_witness :
    (connect_stream (StreamManager.init Nat 5) 0 "rtsp"
      { gstreamer := OpenResult.failed, ffmpeg := OpenResult.failed }).2
      = false := by
  exact (C8_connect_open_failure (StreamManager.init Nat 5) 0 "rtsp"
    { gstreamer := OpenResult.failed, ffmpeg := OpenResult.failed }
    (by decide) (by decide)).1

/-- C9 counterexample: the constructors perform no positivity validation: a
StreamManager built with the non-positive buffer size -3 is accepted and
stores -3 (instead of rejecting it), a CameraManager built with fps 0 is
accepted and stores 0, and a buffer configured with maxsize 0 is never
full, so a push grows a buffer already holding five frames to six rather
than enforcing any bound. -/
theorem C9_no_validation_counterexample :
    (StreamManager.init Nat (-3)).buffer_size = -3 ∧
    (StreamManager.init Nat (-3)).streams = [] ∧
    (CameraManager.init (640, 480) 0).fps = 0 ∧
    bufferPush (0 : Int) [0, 1, 2, 3, 4] 5 = [0, 1, 2, 3, 4, 5] ∧
    queueFull (0 : Int) ([0, 1, 2, 3, 4] : List Nat) = false := by
  refine ⟨rfl, rfl, rfl, by decide, by decide⟩

/-- C9 amended: the configuration inputs consumed by the core are not
validated: both constructors accept every value, including non-positive
ones, and store them exactly as given; moreover a non-positive buffer
capacity makes the frame queue unbounded, since such a queue is never full
and every push appends. -/
theorem C9_config_accepted_unvalidated (b fps : Int) (res : Int × Int) :
    (StreamManager.init Nat b).buffer_size = b ∧
    (CameraManager.init res fps).fps = fps ∧
    (CameraManager.init res fps).resolution = res ∧
    (b ≤ 0 → ∀ (buf : List Nat) (f : Nat), bufferPush b buf f = buf ++ [f]) := by
  refine ⟨rfl, rfl, rfl, ?_⟩
  intro hb buf f
  have hq : queueFull b buf = false := by
    unfold queueFull
    simp
    intro h0
    omega
  simp [bufferPush, hq]

theorem C9_config_accepted_unvalidated_witness :
    (-1 : Int) ≤ 0 ∧ bufferPush (-1 : Int) ([] : List Nat) 7 = [7] := by
  refine ⟨by decide, ?_⟩
  exact (C9_config_accepted_unvalidated (-1) 15 (640, 480)).2.2.2
    (by decide) [] 7

end BaseCams
